import Mathlib

/-!
Verification of the media-state core of `m_nowplaying` (src/lib.rs).

The shallow embedding models the shared state (`MediaState`), the
snapshot type (`MediaSnapshot`), the change-detecting update
`update_state_with`, the `wait_for_media` / `halt` condition-variable
protocol, the per-field accessors, and the pure tail of `fetch_current`.

Stateful Rust code becomes explicit state passing: a function that
mutates the locked `MediaState` is embedded as a function from the old
state to the new state, paired with a `Bool` that records whether
`cvar.notify_all()` was invoked during the call.  The `u64` version
counter is a `Nat` reduced `% 2 ^ 64` at the single point where the
source uses `wrapping_add`.  The `MEDIA_LISTENING` atomic lives next to
the mutex-guarded state in a `Global` record.
-/

namespace MNowPlaying

/-- `MediaSnapshot` from src/lib.rs: one observation of the external
media source.  `u32` fields become `Nat` (only equality and decimal
rendering are ever applied to them). -/
structure MediaSnapshot where
  title : Option String
  artist : Option String
  album_title : Option String
  album_artist : Option String
  genres : Option (List String)
  subtitle : Option String
  track_number : Option Nat
  album_track_count : Option Nat
  playback_type : Option String
  thumbnail_path : Option String
  deriving DecidableEq

/-- `MediaState` from src/lib.rs: the mutex-guarded shared state
(metadata fields plus the `version` counter and `cancelled` flag). -/
structure MediaState where
  title : Option String
  artist : Option String
  album_title : Option String
  album_artist : Option String
  genres : Option (List String)
  subtitle : Option String
  track_number : Option Nat
  album_track_count : Option Nat
  playback_type : Option String
  thumbnail_path : Option String
  version : Nat
  cancelled : Bool
  deriving DecidableEq

/-- The whole process-global mutable state: the locked `MediaState`
together with the `MEDIA_LISTENING` atomic boolean. -/
structure Global where
  state : MediaState
  listening : Bool
  deriving DecidableEq

/-- `mirust::MircResult`: result code plus optional string payloads. -/
structure MircResult where
  code : Nat
  data : Option String
  parms : Option String
  deriving DecidableEq

/-- The modulus of the `u64` version counter. -/
def u64Size : Nat := 2 ^ 64

/-- Rust `str::trim`: drop whitespace from both ends.  Written over the
character list so that it reduces in the kernel (the library `trim` is
defined through well-founded recursion and does not). -/
def rustTrim (s : String) : String :=
  String.mk (List.reverse (List.dropWhile Char.isWhitespace
    (List.reverse (List.dropWhile Char.isWhitespace s.data))))

/-- `any_changed` from src/lib.rs: two optional values differ. -/
def any_changed {α : Type} [DecidableEq α] (a b : Option α) : Bool :=
  decide (a ≠ b)

/-- One `if any_changed(&state.f, &newm.f) { state.f = newm.f; changed = true }`
block of `update_state_with`: returns the new field value and the new
`changed` accumulator. -/
def step {α : Type} [DecidableEq α] (cur newv : Option α) (changed : Bool) :
    Option α × Bool :=
  if any_changed cur newv then (newv, true) else (cur, changed)

/-- The `Some(newm)` branch of `update_state_with`: the ten field
comparison blocks in source order, then the `if changed` bump of
`version` (wrapping), clear of `cancelled` and `notify_all`.  The
returned `Bool` records whether `notify_all` was called. -/
def update_some (state : MediaState) (newm : MediaSnapshot) :
    MediaState × Bool :=
  let p1 := step state.title newm.title false
  let p2 := step state.artist newm.artist p1.2
  let p3 := step state.album_title newm.album_title p2.2
  let p4 := step state.album_artist newm.album_artist p3.2
  let p5 := step state.genres newm.genres p4.2
  let p6 := step state.subtitle newm.subtitle p5.2
  let p7 := step state.track_number newm.track_number p6.2
  let p8 := step state.album_track_count newm.album_track_count p7.2
  let p9 := step state.playback_type newm.playback_type p8.2
  let p10 := step state.thumbnail_path newm.thumbnail_path p9.2
  let st : MediaState :=
    { title := p1.1, artist := p2.1, album_title := p3.1,
      album_artist := p4.1, genres := p5.1, subtitle := p6.1,
      track_number := p7.1, album_track_count := p8.1,
      playback_type := p9.1, thumbnail_path := p10.1,
      version := state.version, cancelled := state.cancelled }
  if p10.2 then
    ({ st with version := (state.version + 1) % u64Size, cancelled := false },
     true)
  else
    (st, false)

/-- The `None` branch of `update_state_with`: if any field `is_some`,
clear every field, bump `version` (wrapping), clear `cancelled` and
`notify_all`; otherwise do nothing (no spurious wake-up for
`None -> None`). -/
def update_none (state : MediaState) : MediaState × Bool :=
  if state.title.isSome || state.artist.isSome || state.album_title.isSome ||
      state.album_artist.isSome || state.genres.isSome ||
      state.subtitle.isSome || state.track_number.isSome ||
      state.album_track_count.isSome || state.playback_type.isSome ||
      state.thumbnail_path.isSome then
    ({ title := none, artist := none, album_title := none,
       album_artist := none, genres := none, subtitle := none,
       track_number := none, album_track_count := none,
       playback_type := none, thumbnail_path := none,
       version := (state.version + 1) % u64Size, cancelled := false },
     true)
  else
    (state, false)

/-- `update_state_with` from src/lib.rs, as a function on the locked
state.  The `Bool` component is `true` exactly when the source calls
`cvar.notify_all()` (which it does together with the version bump and
the clearing of `cancelled`). -/
def update_state_with (new : Option MediaSnapshot) (state : MediaState) :
    MediaState × Bool :=
  match new with
  | some newm => update_some state newm
  | none => update_none state

/-- The ten metadata fields of a `MediaState`, as a snapshot value. -/
def snapshotOf (s : MediaState) : MediaSnapshot :=
  { title := s.title, artist := s.artist, album_title := s.album_title,
    album_artist := s.album_artist, genres := s.genres,
    subtitle := s.subtitle, track_number := s.track_number,
    album_track_count := s.album_track_count,
    playback_type := s.playback_type, thumbnail_path := s.thumbnail_path }

/-- The all-absent snapshot (every field `None`). -/
def absentSnapshot : MediaSnapshot :=
  { title := none, artist := none, album_title := none, album_artist := none,
    genres := none, subtitle := none, track_number := none,
    album_track_count := none, playback_type := none,
    thumbnail_path := none }

/-- Spec-side change predicate: the incoming value differs from the
stored state in at least one field; an absent (`None`) incoming value
against an already all-absent state counts as no difference. -/
def updateDiffers (new : Option MediaSnapshot) (state : MediaState) : Bool :=
  match new with
  | some m => decide (m ≠ snapshotOf state)
  | none => decide (snapshotOf state ≠ absentSnapshot)

/-- Number of fields in which two snapshots differ. -/
def diffCount (a b : MediaSnapshot) : Nat :=
  (if a.title = b.title then 0 else 1) +
  (if a.artist = b.artist then 0 else 1) +
  (if a.album_title = b.album_title then 0 else 1) +
  (if a.album_artist = b.album_artist then 0 else 1) +
  (if a.genres = b.genres then 0 else 1) +
  (if a.subtitle = b.subtitle then 0 else 1) +
  (if a.track_number = b.track_number then 0 else 1) +
  (if a.album_track_count = b.album_track_count then 0 else 1) +
  (if a.playback_type = b.playback_type then 0 else 1) +
  (if a.thumbnail_path = b.thumbnail_path then 0 else 1)

/-- The raw property values obtained from the external provider inside
`fetch_current`, after the Windows getters have been consumed: `Title`
and `Artist` with `unwrap_or_default`, the other getters as `Option`s,
and the genre vector already collected into a list. -/
structure RawProps where
  title : String
  artist : String
  album_title : Option String
  album_artist : Option String
  subtitle : Option String
  track_number : Option Nat
  playback_type : Option String
  genres_list : List String
  deriving DecidableEq

/-- The pure tail of `fetch_current` from src/lib.rs: build the genre
option (`None` for an empty vector), normalize a snapshot whose `title`
and `artist` are both empty-or-whitespace to `None`, and otherwise wrap
the raw values into a `MediaSnapshot` with `album_track_count = None`
("Not provided by API") and `thumbnail_path = None` ("Not implemented
yet"). -/
def fetch_current (p : RawProps) : Option MediaSnapshot :=
  let genres : Option (List String) :=
    if p.genres_list.isEmpty then none else some p.genres_list
  if (rustTrim p.title).isEmpty && (rustTrim p.artist).isEmpty then
    none
  else
    some { title := some p.title, artist := some p.artist,
           album_title := p.album_title, album_artist := p.album_artist,
           genres := genres, subtitle := p.subtitle,
           track_number := p.track_number, album_track_count := none,
           playback_type := p.playback_type, thumbnail_path := none }

/-- The result every accessor returns when `is_listening()` is false:
code 3 with `Some(String::new())`. -/
def notListeningResult : MircResult :=
  { code := 3, data := some "", parms := none }

/-- `title` accessor from src/lib.rs:
`state.title.as_ref().map(trim).filter(non-empty).unwrap_or("")`. -/
def title (g : Global) : MircResult :=
  if !g.listening then notListeningResult
  else
    let value :=
      ((g.state.title.map rustTrim).filter (fun s => !s.isEmpty)).getD ""
    { code := 3, data := some value, parms := none }

/-- `artist` accessor from src/lib.rs. -/
def artist (g : Global) : MircResult :=
  if !g.listening then notListeningResult
  else
    let value :=
      ((g.state.artist.map rustTrim).filter (fun s => !s.isEmpty)).getD ""
    { code := 3, data := some value, parms := none }

/-- `albumtitle` accessor from src/lib.rs. -/
def albumtitle (g : Global) : MircResult :=
  if !g.listening then notListeningResult
  else
    let value :=
      ((g.state.album_title.map rustTrim).filter
        (fun s => !s.isEmpty)).getD ""
    { code := 3, data := some value, parms := none }

/-- `albumartist` accessor from src/lib.rs. -/
def albumartist (g : Global) : MircResult :=
  if !g.listening then notListeningResult
  else
    let value :=
      ((g.state.album_artist.map rustTrim).filter
        (fun s => !s.isEmpty)).getD ""
    { code := 3, data := some value, parms := none }

/-- `subtitle` accessor from src/lib.rs. -/
def subtitle (g : Global) : MircResult :=
  if !g.listening then notListeningResult
  else
    let value :=
      ((g.state.subtitle.map rustTrim).filter
        (fun s => !s.isEmpty)).getD ""
    { code := 3, data := some value, parms := none }

/-- `genres` accessor from src/lib.rs:
`state.genres.as_ref().map(|v| v.join(", ")).unwrap_or("")`. -/
def genres (g : Global) : MircResult :=
  if !g.listening then notListeningResult
  else
    let value := (g.state.genres.map (String.intercalate ", ")).getD ""
    { code := 3, data := some value, parms := none }

/-- `playbacktype` accessor from src/lib.rs:
`state.playback_type.as_ref().map(as_str).unwrap_or("")` (no trim). -/
def playbacktype (g : Global) : MircResult :=
  if !g.listening then notListeningResult
  else
    let value := g.state.playback_type.getD ""
    { code := 3, data := some value, parms := none }

/-- `tracknumber` accessor from src/lib.rs:
`state.track_number.map(|n| n.to_string()).unwrap_or("")`. -/
def tracknumber (g : Global) : MircResult :=
  if !g.listening then notListeningResult
  else
    let value := (g.state.track_number.map (fun n => toString n)).getD ""
    { code := 3, data := some value, parms := none }

/-- `albumtrackcount` accessor from src/lib.rs. -/
def albumtrackcount (g : Global) : MircResult :=
  if !g.listening then notListeningResult
  else
    let value := (g.state.album_track_count.map (fun n => toString n)).getD ""
    { code := 3, data := some value, parms := none }

/-- `thumbnail` accessor from src/lib.rs:
`state.thumbnail_path.clone().unwrap_or_default()` (no trim). -/
def thumbnail (g : Global) : MircResult :=
  if !g.listening then notListeningResult
  else
    let value := g.state.thumbnail_path.getD ""
    { code := 3, data := some value, parms := none }

/-- `halt` from src/lib.rs: under the lock, store `false` into
`MEDIA_LISTENING`, set `cancelled = true`, `notify_all`, and return
code 3 with payload `"S_OK"`.  The final `Bool` records the
unconditional `notify_all`. -/
def halt (g : Global) : Global × MircResult × Bool :=
  ({ state := { g.state with cancelled := true }, listening := false },
   ({ code := 3, data := some "S_OK", parms := none }, true))

/-- The condition under which `wait_for_media` keeps blocking:
`state.version == initial_version && !state.cancelled`. -/
def waitGuard (initial_version : Nat) (state : MediaState) : Bool :=
  state.version == initial_version && !state.cancelled

/-- The entry sequence of `wait_for_media` under the lock: record
`initial_version = state.version` and set `state.cancelled = false`.
Returns the state as left at the first guard check and the recorded
version. -/
def wait_entry (state : MediaState) : MediaState × Nat :=
  ({ state with cancelled := false }, state.version)

/-- The `while state.version == initial_version && !state.cancelled`
loop of `wait_for_media`.  Each `cvar.wait` is modelled by consuming
the next element of `wakeups`: the state observed after that wake-up.
`some s` means the loop exited with final observed state `s`; `none`
means every observed state kept the guard true and the trace ran out
(the call is still blocked). -/
def wait_loop : Nat → MediaState → List MediaState → Option MediaState
  | iv, state, [] => if waitGuard iv state then none else some state
  | iv, state, s :: rest =>
      if waitGuard iv state then wait_loop iv s rest else some state

/-- `wait_for_media` from src/lib.rs: store `true` into
`MEDIA_LISTENING` (the watcher start is a no-op after the first call;
neither is modelled further since concurrent calls may overwrite the
flag while this call blocks), run the entry sequence, block in the
loop, and on unblocking return code 1 with no payloads.  `wakeups` is
the trace of locked states observed at successive condition-variable
wake-ups; the result pairs the final observed state with the returned
`MircResult`, and `none` means the call never unblocked on this
trace. -/
def wait_for_media (g : Global) (wakeups : List MediaState) :
    Option (MediaState × MircResult) :=
  let entry := wait_entry g.state
  match wait_loop entry.2 entry.1 wakeups with
  | some s => some (s, { code := 1, data := none, parms := none })
  | none => none

/-- Spec-side presentation normalization for the trim-and-filter string
accessors: trim, with unset or empty-after-trim yielding `""`. -/
def normTrimmed (o : Option String) : String :=
  match o with
  | none => ""
  | some s => if (rustTrim s).isEmpty then "" else rustTrim s

/-- Spec-side normalization for the genre sequence: join with `", "`,
unset yielding `""`. -/
def normJoined (o : Option (List String)) : String :=
  match o with
  | none => ""
  | some l => String.intercalate ", " l

/-- Spec-side normalization for numeric fields: decimal rendering,
unset yielding `""`. -/
def normNumber (o : Option Nat) : String :=
  match o with
  | none => ""
  | some n => toString n

/-- Spec-side normalization for fields returned verbatim: the stored
string unmodified, unset yielding `""`. -/
def normRaw (o : Option String) : String :=
  match o with
  | none => ""
  | some s => s

/-- The accessor result shape: code 3 with the given payload when
listening, code 3 with `""` otherwise. -/
def accessorResult (g : Global) (v : String) : MircResult :=
  if g.listening then { code := 3, data := some v, parms := none }
  else { code := 3, data := some "", parms := none }

/-- Fixture: the `MediaState::default()` value (all fields `None`,
`version = 0`, `cancelled = false`). -/
def state0 : MediaState :=
  { title := none, artist := none, album_title := none, album_artist := none,
    genres := none, subtitle := none, track_number := none,
    album_track_count := none, playback_type := none, thumbnail_path := none,
    version := 0, cancelled := false }

/-- Fixture: the default state after one version bump. -/
def stateBump : MediaState := { state0 with version := 1 }

/-- Fixture: a state with a pending cancellation and nonzero version. -/
def stateC : MediaState :=
  { state0 with title := some "Song A", version := 7, cancelled := true }

/-- Fixture: a snapshot equal to `snapshotOf stateC`. -/
def snapC : MediaSnapshot := { absentSnapshot with title := some "Song A" }

/-- Fixture: an all-absent snapshot except for `track_number`. -/
def snap1 : MediaSnapshot := { absentSnapshot with track_number := some 1 }

/-- Fixture: the default global state, no consumer listening. -/
def global0 : Global := { state := state0, listening := false }

/-- Fixture: a listening global state whose stored `playback_type`
carries surrounding whitespace. -/
def globalPT : Global :=
  { state := { state0 with playback_type := some " Music " },
    listening := true }

/-- Fixture: raw fetched properties with whitespace-only title and
empty artist. -/
def rawEmpty : RawProps :=
  { title := " ", artist := "", album_title := none, album_artist := none,
    subtitle := none, track_number := none, playback_type := none,
    genres_list := [] }

/-- Fixture: raw fetched properties reporting a track number. -/
def rawTrack : RawProps :=
  { title := "a", artist := "b", album_title := none, album_artist := none,
    subtitle := none, track_number := some 5, playback_type := none,
    genres_list := [] }

/-- Fixture: the snapshot `fetch_current` builds from `rawTrack`. -/
def snapTrack : MediaSnapshot :=
  { title := some "a", artist := some "b", album_title := none,
    album_artist := none, genres := none, subtitle := none,
    track_number := some 5, album_track_count := none,
    playback_type := none, thumbnail_path := none }

theorem step_fst {α : Type} [DecidableEq α] (cur newv : Option α)
    (changed : Bool) : (step cur newv changed).1 = newv := by
  unfold step any_changed
  split
  · rfl
  · next h =>
      simp only [decide_eq_true_eq, not_not] at h
      simpa using h

theorem step_snd {α : Type} [DecidableEq α] (cur newv : Option α)
    (changed : Bool) :
    (step cur newv changed).2 = (changed || decide (cur ≠ newv)) := by
  unfold step any_changed
  split <;> simp_all

theorem bump_ne (v : Nat) (h : v < u64Size) : (v + 1) % u64Size ≠ v := by
  have hu : u64Size = 18446744073709551616 := by norm_num [u64Size]
  rw [hu] at h ⊢
  omega

theorem update_some_eq (state : MediaState) (m : MediaSnapshot) :
    update_some state m =
      if m = snapshotOf state then (state, false)
      else
        ({ title := m.title, artist := m.artist, album_title := m.album_title,
           album_artist := m.album_artist, genres := m.genres,
           subtitle := m.subtitle, track_number := m.track_number,
           album_track_count := m.album_track_count,
           playback_type := m.playback_type,
           thumbnail_path := m.thumbnail_path,
           version := (state.version + 1) % u64Size, cancelled := false },
         true) := by
  by_cases h : m = snapshotOf state
  · subst h
    simp [update_some, step, any_changed, snapshotOf]
  · rw [if_neg h]
    simp only [update_some, step_fst, step_snd, Bool.false_or]
    split
    · rfl
    · next hc =>
        exfalso
        apply h
        simp only [Bool.or_eq_true, decide_eq_true_eq, not_or, not_not] at hc
        obtain ⟨⟨⟨⟨⟨⟨⟨⟨⟨h1, h2⟩, h3⟩, h4⟩, h5⟩, h6⟩, h7⟩, h8⟩, h9⟩, h10⟩ := hc
        cases m
        simp only [snapshotOf, MediaSnapshot.mk.injEq] at h1 h2 h3 h4 h5 h6 h7 h8 h9 h10 ⊢
        exact ⟨h1.symm, h2.symm, h3.symm, h4.symm, h5.symm, h6.symm, h7.symm,
               h8.symm, h9.symm, h10.symm⟩

theorem update_none_eq (state : MediaState) :
    update_none state =
      if snapshotOf state = absentSnapshot then (state, false)
      else
        ({ title := none, artist := none, album_title := none,
           album_artist := none, genres := none, subtitle := none,
           track_number := none, album_track_count := none,
           playback_type := none, thumbnail_path := none,
           version := (state.version + 1) % u64Size, cancelled := false },
         true) := by
  by_cases h : snapshotOf state = absentSnapshot
  · rw [if_pos h]
    have hf : state.title = none ∧ state.artist = none ∧
        state.album_title = none ∧ state.album_artist = none ∧
        state.genres = none ∧ state.subtitle = none ∧
        state.track_number = none ∧ state.album_track_count = none ∧
        state.playback_type = none ∧ state.thumbnail_path = none := by
      simpa [snapshotOf, absentSnapshot, MediaSnapshot.mk.injEq] using h
    obtain ⟨h1, h2, h3, h4, h5, h6, h7, h8, h9, h10⟩ := hf
    simp [update_none, h1, h2, h3, h4, h5, h6, h7, h8, h9, h10]
  · rw [if_neg h]
    unfold update_none
    split
    · rfl
    · next hc =>
        exfalso
        apply h
        simp only [Bool.or_eq_true, Option.isSome_iff_ne_none, not_or,
          not_not] at hc
        obtain ⟨⟨⟨⟨⟨⟨⟨⟨⟨h1, h2⟩, h3⟩, h4⟩, h5⟩, h6⟩, h7⟩, h8⟩, h9⟩, h10⟩ := hc
        simp [snapshotOf, absentSnapshot, MediaSnapshot.mk.injEq,
          h1, h2, h3, h4, h5, h6, h7, h8, h9, h10]

theorem snapshotOf_update_some (state : MediaState) (m : MediaSnapshot) :
    snapshotOf (update_some state m).1 = m := by
  rw [update_some_eq]
  split
  · next h => exact h.symm
  · cases m
    simp [snapshotOf]

theorem waitGuard_false_iff (iv : Nat) (s : MediaState) :
    waitGuard iv s = false ↔ (s.version ≠ iv ∨ s.cancelled = true) := by
  unfold waitGuard
  cases hc : s.cancelled <;> simp [hc]

theorem waitGuard_true_iff (iv : Nat) (s : MediaState) :
    waitGuard iv s = true ↔ (s.version = iv ∧ s.cancelled = false) := by
  unfold waitGuard
  cases hc : s.cancelled <;> simp [hc]

theorem wait_loop_some_guard (iv : Nat) (ws : List MediaState) :
    ∀ st s, wait_loop iv st ws = some s → waitGuard iv s = false := by
  induction ws with
  | nil =>
      intro st s h
      unfold wait_loop at h
      split at h
      · exact Option.noConfusion h
      · next hg =>
          obtain rfl : st = s := Option.some.inj h
          simpa using hg
  | cons w rest ih =>
      intro st s h
      unfold wait_loop at h
      split at h
      · exact ih w s h
      · next hg =>
          obtain rfl : st = s := Option.some.inj h
          simpa using hg

theorem wait_loop_none_iff (iv : Nat) (ws : List MediaState) :
    ∀ st, wait_loop iv st ws = none ↔
      ∀ s ∈ st :: ws, waitGuard iv s = true := by
  induction ws with
  | nil =>
      intro st
      constructor
      · intro h
        unfold wait_loop at h
        split at h
        · next hg =>
            intro s hs
            rw [List.mem_singleton] at hs
            subst hs
            exact hg
        · exact Option.noConfusion h
      · intro h
        unfold wait_loop
        rw [if_pos (h st (List.mem_singleton.mpr rfl))]
  | cons w rest ih =>
      intro st
      constructor
      · intro h
        unfold wait_loop at h
        split at h
        · next hg =>
            intro s hs
            rcases List.mem_cons.mp hs with rfl | hs'
            · exact hg
            · exact (ih w).mp h s hs'
        · exact Option.noConfusion h
      · intro h
        unfold wait_loop
        rw [if_pos (h st (List.mem_cons_self st _))]
        exact (ih w).mpr (fun s hs => h s (List.mem_cons_of_mem st hs))

theorem trimFilter_eq (o : Option String) :
    ((o.map rustTrim).filter (fun s => !s.isEmpty)).getD "" = normTrimmed o := by
  cases o with
  | none => rfl
  | some s =>
      by_cases he : (rustTrim s).isEmpty
      · simp [Option.filter, he, normTrimmed]
      · simp [Option.filter, he, normTrimmed]

/-- C1: `update_state_with` increments the stored version counter (to
`(v + 1) % 2^64`, a value different from `v` while `v` is a valid
`u64`) if and only if at least one field of the incoming value differs
from the stored state, where an absent (`None`) incoming snapshot
against an all-absent stored state counts as no difference, and a
transition from any field present to all fields absent counts as
exactly one change (one single bump). -/
theorem c1_version_bump_iff (state : MediaState) (new : Option MediaSnapshot)
    (h : state.version < u64Size) :
    ((update_state_with new state).1.version =
      if updateDiffers new state then (state.version + 1) % u64Size
      else state.version) ∧
    (state.version + 1) % u64Size ≠ state.version := by
  refine ⟨?_, bump_ne state.version h⟩
  cases new with
  | some m =>
      by_cases hm : m = snapshotOf state
      · simp [update_state_with, update_some_eq, updateDiffers, hm]
      · simp [update_state_with, update_some_eq, updateDiffers, hm]
  | none =>
      by_cases hm : snapshotOf state = absentSnapshot
      · simp [update_state_with, update_none_eq, updateDiffers, hm]
      · simp [update_state_with, update_none_eq, updateDiffers, hm]

theorem c1_witness :
    state0.version < u64Size ∧
    ((update_state_with (some snap1) state0).1.version =
      if updateDiffers (some snap1) state0 then (state0.version + 1) % u64Size
      else state0.version) ∧
    (state0.version + 1) % u64Size ≠ state0.version :=
  ⟨by norm_num [state0, u64Size],
   (c1_version_bump_iff state0 (some snap1)
     (by norm_num [state0, u64Size])).1,
   (c1_version_bump_iff state0 (some snap1)
     (by norm_num [state0, u64Size])).2⟩

/-- C4: whenever `update_state_with` detects a change (in either the
`Some`-incoming or the `None`-incoming branch — the returned flag, which
records the `notify_all` call, is `true`), it increments the version by
exactly one (mod `2^64`) and sets `cancelled` to `false`, so a pending
cancellation is wiped out by any observable change. -/
theorem c4_change_side_effects (state : MediaState)
    (new : Option MediaSnapshot)
    (h : (update_state_with new state).2 = true) :
    (update_state_with new state).1.version =
      (state.version + 1) % u64Size ∧
    (update_state_with new state).1.cancelled = false := by
  cases new with
  | some m =>
      by_cases hm : m = snapshotOf state
      · exfalso
        simp [update_state_with, update_some_eq, hm] at h
      · simp [update_state_with, update_some_eq, hm]
  | none =>
      by_cases hm : snapshotOf state = absentSnapshot
      · exfalso
        simp [update_state_with, update_none_eq, hm] at h
      · simp [update_state_with, update_none_eq, hm]

theorem c4_witness :
    (update_state_with (some snap1) state0).2 = true ∧
    (update_state_with (some snap1) state0).1.version =
      (state0.version + 1) % u64Size ∧
    (update_state_with (some snap1) state0).1.cancelled = false :=
  ⟨by decide,
   (c4_change_side_effects state0 (some snap1) (by decide)).1,
   (c4_change_side_effects state0 (some snap1) (by decide)).2⟩

/-- C5: for every stored state and every present incoming snapshot
differing from it in exactly one field, the update reports a change and
the stored fields afterwards equal the incoming snapshot — the incoming
value for the differing field and the prior stored value for all
others (which the incoming snapshot carries unchanged); in particular a
`None` field of the incoming snapshot overwrites a present stored value
(last write wins, not a sparse merge). -/
theorem c5_single_field_merge (state : MediaState) (m : MediaSnapshot)
    (h : diffCount (snapshotOf state) m = 1) :
    (update_state_with (some m) state).2 = true ∧
    snapshotOf (update_state_with (some m) state).1 = m := by
  have hne : m ≠ snapshotOf state := by
    intro he
    rw [he] at h
    simp [diffCount] at h
  exact ⟨by simp [update_state_with, update_some_eq, hne],
         snapshotOf_update_some state m⟩

theorem c5_witness :
    diffCount (snapshotOf state0) snap1 = 1 ∧
    ((update_state_with (some snap1) state0).2 = true ∧
     snapshotOf (update_state_with (some snap1) state0).1 = snap1) :=
  ⟨by decide, c5_single_field_merge state0 snap1 (by decide)⟩

/-- C9: a present incoming snapshot whose every field equals the
corresponding stored field leaves the entire shared state unchanged: no
field is written, the version is not bumped, a previously set
`cancelled` flag remains set, and no waiter is notified (the returned
flag is `false`), so a pending halt survives a duplicate push. -/
theorem c9_duplicate_push_noop (state : MediaState) (m : MediaSnapshot)
    (h : snapshotOf state = m) :
    update_state_with (some m) state = (state, false) := by
  simp only [update_state_with]
  rw [update_some_eq, if_pos h.symm]

theorem c9_witness :
    snapshotOf stateC = snapC ∧
    update_state_with (some snapC) stateC = (stateC, false) :=
  ⟨by decide, c9_duplicate_push_noop stateC snapC (by decide)⟩

theorem joined_eq (o : Option (List String)) :
    (o.map (String.intercalate ", ")).getD "" = normJoined o := by
  cases o <;> rfl

theorem number_eq (o : Option Nat) :
    (o.map (fun n => toString n)).getD "" = normNumber o := by
  cases o <;> rfl

theorem raw_eq (o : Option String) : o.getD "" = normRaw o := by
  cases o <;> rfl

/-- C2: `wait_for_media` records the version at entry and clears the
cancelled flag; the loop condition is re-checked against every state
observed at a wake-up, and the call returns exactly when the observed
state's stored version differs from the recorded initial version or
its cancelled flag is set: an unblocked call ends at such a state, and
the call stays blocked through a wake-up trace iff every observed state
(including the one at entry) still has the initial version and a clear
cancelled flag. -/
theorem c2_wait_protocol (g : Global) (ws : List MediaState) :
    (wait_entry g.state).2 = g.state.version ∧
    (wait_entry g.state).1.cancelled = false ∧
    (wait_entry g.state).1.version = g.state.version ∧
    (∀ p : MediaState × MircResult, wait_for_media g ws = some p →
        p.1.version ≠ g.state.version ∨ p.1.cancelled = true) ∧
    (wait_for_media g ws = none ↔
        ∀ s ∈ (wait_entry g.state).1 :: ws,
          s.version = g.state.version ∧ s.cancelled = false) := by
  refine ⟨rfl, rfl, rfl, ?_, ?_⟩
  · intro p hp
    simp only [wait_for_media] at hp
    cases hl : wait_loop (wait_entry g.state).2 (wait_entry g.state).1 ws with
    | none => rw [hl] at hp; exact Option.noConfusion hp
    | some s =>
        rw [hl] at hp
        obtain rfl := Option.some.inj hp
        have hg := wait_loop_some_guard (wait_entry g.state).2 ws
          (wait_entry g.state).1 s hl
        have h2 := (waitGuard_false_iff (wait_entry g.state).2 s).mp hg
        simpa [wait_entry] using h2
  · constructor
    · intro hn s hs
      simp only [wait_for_media] at hn
      cases hl : wait_loop (wait_entry g.state).2 (wait_entry g.state).1 ws
        with
      | some s' => rw [hl] at hn; exact Option.noConfusion hn
      | none =>
          have hall := (wait_loop_none_iff (wait_entry g.state).2 ws
            (wait_entry g.state).1).mp hl
          have hg := (waitGuard_true_iff (wait_entry g.state).2 s).mp
            (hall s hs)
          simpa [wait_entry] using hg
    · intro hall
      simp only [wait_for_media]
      have hn : wait_loop (wait_entry g.state).2 (wait_entry g.state).1 ws
          = none :=
        (wait_loop_none_iff (wait_entry g.state).2 ws
          (wait_entry g.state).1).mpr
          (fun s hs => (waitGuard_true_iff (wait_entry g.state).2 s).mpr
            (by simpa [wait_entry] using hall s hs))
      rw [hn]

theorem c2_witness :
    wait_for_media global0 [stateBump] =
      some (stateBump, { code := 1, data := none, parms := none }) ∧
    (stateBump.version ≠ global0.state.version ∨
      stateBump.cancelled = true) :=
  ⟨by decide,
   (c2_wait_protocol global0 [stateBump]).2.2.2.1
     (stateBump, { code := 1, data := none, parms := none }) (by decide)⟩

/-- C3: `halt` sets `listening` to `false` and `cancelled` to `true`
and wakes all waiters (the returned flag records the unconditional
`notify_all`), and it leaves every stored metadata field value and the
version counter unchanged; subsequent accessors return empty strings
only because `listening` is false, not because data was erased. -/
theorem c3_halt_frame (g : Global) :
    (halt g).1.listening = false ∧
    (halt g).1.state.cancelled = true ∧
    (halt g).2.2 = true ∧
    snapshotOf (halt g).1.state = snapshotOf g.state ∧
    (halt g).1.state.version = g.state.version ∧
    title (halt g).1 = notListeningResult ∧
    artist (halt g).1 = notListeningResult ∧
    albumtitle (halt g).1 = notListeningResult ∧
    albumartist (halt g).1 = notListeningResult ∧
    genres (halt g).1 = notListeningResult ∧
    subtitle (halt g).1 = notListeningResult ∧
    tracknumber (halt g).1 = notListeningResult ∧
    albumtrackcount (halt g).1 = notListeningResult ∧
    playbacktype (halt g).1 = notListeningResult ∧
    thumbnail (halt g).1 = notListeningResult := by
  refine ⟨?_, ?_, ?_, ?_, ?_, ?_, ?_, ?_, ?_, ?_, ?_, ?_, ?_, ?_, ?_⟩ <;> rfl

/-- C10: the public entry points return fixed result codes:
`wait_for_media` returns code 1 with no string payloads whenever it
unblocks, `halt` always returns code 3 with payload `"S_OK"`, and every
field accessor always returns code 3 with a present (possibly empty)
string payload and no `parms`, regardless of state. -/
theorem c10_result_codes :
    (∀ (g : Global) (ws : List MediaState) (p : MediaState × MircResult),
        wait_for_media g ws = some p →
          p.2 = { code := 1, data := none, parms := none }) ∧
    (∀ g : Global,
        (halt g).2.1 = { code := 3, data := some "S_OK", parms := none }) ∧
    (∀ g : Global, (title g).code = 3 ∧ ((title g).data).isSome = true ∧
        (title g).parms = none) ∧
    (∀ g : Global, (artist g).code = 3 ∧ ((artist g).data).isSome = true ∧
        (artist g).parms = none) ∧
    (∀ g : Global, (albumtitle g).code = 3 ∧
        ((albumtitle g).data).isSome = true ∧ (albumtitle g).parms = none) ∧
    (∀ g : Global, (albumartist g).code = 3 ∧
        ((albumartist g).data).isSome = true ∧ (albumartist g).parms = none) ∧
    (∀ g : Global, (genres g).code = 3 ∧ ((genres g).data).isSome = true ∧
        (genres g).parms = none) ∧
    (∀ g : Global, (subtitle g).code = 3 ∧
        ((subtitle g).data).isSome = true ∧ (subtitle g).parms = none) ∧
    (∀ g : Global, (tracknumber g).code = 3 ∧
        ((tracknumber g).data).isSome = true ∧ (tracknumber g).parms = none) ∧
    (∀ g : Global, (albumtrackcount g).code = 3 ∧
        ((albumtrackcount g).data).isSome = true ∧
        (albumtrackcount g).parms = none) ∧
    (∀ g : Global, (playbacktype g).code = 3 ∧
        ((playbacktype g).data).isSome = true ∧
        (playbacktype g).parms = none) ∧
    (∀ g : Global, (thumbnail g).code = 3 ∧
        ((thumbnail g).data).isSome = true ∧ (thumbnail g).parms = none) := by
  refine ⟨?_, fun g => rfl, ?_, ?_, ?_, ?_, ?_, ?_, ?_, ?_, ?_, ?_⟩
  · intro g ws p hp
    simp only [wait_for_media] at hp
    cases hl : wait_loop (wait_entry g.state).2 (wait_entry g.state).1 ws with
    | none => rw [hl] at hp; exact Option.noConfusion hp
    | some s =>
        rw [hl] at hp
        obtain rfl := Option.some.inj hp
        rfl
  all_goals
    intro g
    cases hg : g.listening <;>
      simp [title, artist, albumtitle, albumartist, genres, subtitle,
        tracknumber, albumtrackcount, playbacktype, thumbnail,
        notListeningResult, hg]

theorem c10_witness :
    wait_for_media global0 [stateBump] =
      some (stateBump, { code := 1, data := none, parms := none }) ∧
    (stateBump, ({ code := 1, data := none, parms := none } : MircResult)).2
      = { code := 1, data := none, parms := none } :=
  ⟨by decide,
   c10_result_codes.1 global0 [stateBump]
     (stateBump, { code := 1, data := none, parms := none }) (by decide)⟩

/-- C6: a fetched snapshot whose title and artist are both empty or
whitespace-only is normalized to an absent snapshot (`fetch_current`
returns `None`) before it ever reaches the shared state, so for
detection and storage it is equivalent to no media playing: feeding the
fetch result to the update behaves exactly like feeding `None`. -/
theorem c6_absent_normalization (p : RawProps) (state : MediaState)
    (ht : (rustTrim p.title).isEmpty = true)
    (ha : (rustTrim p.artist).isEmpty = true) :
    fetch_current p = none ∧
    update_state_with (fetch_current p) state =
      update_state_with none state := by
  have hf : fetch_current p = none := by
    simp [fetch_current, ht, ha]
  exact ⟨hf, by rw [hf]⟩

theorem c6_witness :
    (rustTrim rawEmpty.title).isEmpty = true ∧
    (rustTrim rawEmpty.artist).isEmpty = true ∧
    (fetch_current rawEmpty = none ∧
     update_state_with (fetch_current rawEmpty) stateC =
       update_state_with none stateC) :=
  ⟨by decide, by decide,
   c6_absent_normalization rawEmpty stateC (by decide) (by decide)⟩

/-- C7 as stated is false on the code: the `playbacktype` accessor
returns the stored string without any trimming, so a stored value with
surrounding whitespace is returned verbatim rather than trimmed. -/
theorem c7_counterexample :
    globalPT.listening = true ∧
    (playbacktype globalPT).data = some " Music " ∧
    rustTrim " Music " = "Music" ∧
    (playbacktype globalPT).data ≠ some (rustTrim " Music ") :=
  ⟨rfl, by decide, by decide, by decide⟩

/-- C7 amended: when `listening` is false every accessor returns code 3
with the empty string immediately; otherwise `title`, `artist`,
`albumtitle`, `albumartist` and `subtitle` return the stored value
trimmed with unset-or-empty-after-trim yielding the empty string,
`genres` joins the stored sequence with `", "` without trimming,
`tracknumber` and `albumtrackcount` return the decimal rendering of the
stored number or the empty string, and `playbacktype` and `thumbnail`
return the stored string verbatim (no trim) or the empty string when
unset. -/
theorem c7_accessor_normalization (g : Global) :
    title g = accessorResult g (normTrimmed g.state.title) ∧
    artist g = accessorResult g (normTrimmed g.state.artist) ∧
    albumtitle g = accessorResult g (normTrimmed g.state.album_title) ∧
    albumartist g = accessorResult g (normTrimmed g.state.album_artist) ∧
    subtitle g = accessorResult g (normTrimmed g.state.subtitle) ∧
    genres g = accessorResult g (normJoined g.state.genres) ∧
    tracknumber g = accessorResult g (normNumber g.state.track_number) ∧
    albumtrackcount g =
      accessorResult g (normNumber g.state.album_track_count) ∧
    playbacktype g = accessorResult g (normRaw g.state.playback_type) ∧
    thumbnail g = accessorResult g (normRaw g.state.thumbnail_path) := by
  refine ⟨?_, ?_, ?_, ?_, ?_, ?_, ?_, ?_, ?_, ?_⟩
  · cases hg : g.listening <;>
      simp [title, accessorResult, notListeningResult, hg, trimFilter_eq]
  · cases hg : g.listening <;>
      simp [artist, accessorResult, notListeningResult, hg, trimFilter_eq]
  · cases hg : g.listening <;>
      simp [albumtitle, accessorResult, notListeningResult, hg,
        trimFilter_eq]
  · cases hg : g.listening <;>
      simp [albumartist, accessorResult, notListeningResult, hg,
        trimFilter_eq]
  · cases hg : g.listening <;>
      simp [subtitle, accessorResult, notListeningResult, hg, trimFilter_eq]
  · cases hg : g.listening <;>
      simp [genres, accessorResult, notListeningResult, hg, joined_eq]
  · cases hg : g.listening <;>
      simp [tracknumber, accessorResult, notListeningResult, hg, number_eq]
  · cases hg : g.listening <;>
      simp [albumtrackcount, accessorResult, notListeningResult, hg,
        number_eq]
  · cases hg : g.listening <;>
      simp [playbacktype, accessorResult, notListeningResult, hg, raw_eq]
  · cases hg : g.listening <;>
      simp [thumbnail, accessorResult, notListeningResult, hg, raw_eq]

/-- C8 as stated is false on the code: `fetch_current` copies the
externally reported track number into the snapshot, so a produced
snapshot can have `track_number` present. -/
theorem c8_counterexample :
    (fetch_current rawTrack).map MediaSnapshot.track_number =
      some (some 5) ∧
    (some 5 : Option Nat) ≠ none :=
  ⟨by decide, by decide⟩

/-- C8 amended: every snapshot produced by the fetch operation has
`album_track_count` absent (`None`, an external-source limitation),
while `track_number` is the externally reported value and may be
present. -/
theorem c8_fetch_absent_fields (p : RawProps) (s : MediaSnapshot)
    (h : fetch_current p = some s) :
    s.album_track_count = none ∧ s.track_number = p.track_number := by
  simp only [fetch_current] at h
  split at h
  · exact Option.noConfusion h
  · obtain rfl := Option.some.inj h
    exact ⟨rfl, rfl⟩

theorem c8_witness :
    fetch_current rawTrack = some snapTrack ∧
    (snapTrack.album_track_count = none ∧
     snapTrack.track_number = rawTrack.track_number) :=
  ⟨by decide, c8_fetch_absent_fields rawTrack snapTrack (by decide)⟩

end MNowPlaying
